import Mathlib

/-!
Verification of the citation formatting and export engine of a browser-based
citation manager.  The domain logic lives in:

* `src/components/Bibliography.tsx` — style formatter (`formatCitationForExport`,
  `formatInTextCitation`) for APA / MLA / Chicago / Harvard;
* `src/lib/exportUtils.ts` — export encoders (`generateRISFormat`,
  `generateBibTeXFormat`, `generateEndNoteFormat`, `generateCitationKey`,
  `exportToFile`);
* an iterated Bibliography component variant (unnamed part_002) with an inline
  `exportBibliography` handling txt / rtf / csv / bibtex / ris / zotero / mendeley;
* `src/App.tsx` — collection operations (`updateCitation`);
* `src/components/CombinedCitationForm.tsx` — the manual form submit handler.

Every definition below is a direct shallow embedding of the TypeScript source:
JavaScript strings become `String`, optional fields become `Option String`
(with JS truthiness `undefined`/`""` ↦ `false`), arrays become `List`,
`split`/`join`/`trim`/`toLowerCase` become their Lean counterparts, and
functions that `throw` return `Except`.
-/

/-- The `type` field of a stored citation: the closed four-variant union
`'article' | 'website' | 'book' | 'journal'` from `src/App.tsx`. -/
inductive CType where
  | article
  | website
  | book
  | journal
deriving DecidableEq

/-- String value of a `CType`, as it appears in template literals. -/
def CType.str : CType → String
  | .article => "article"
  | .website => "website"
  | .book => "book"
  | .journal => "journal"

/-- The `Citation` record from `src/App.tsx`.  Required fields are plain
`String`s; optional (`?:`) fields are `Option String`.  The display-only
`confidence` score is omitted: no formatting or export code reads it. -/
structure Citation where
  id : String
  title : String
  authors : List String
  year : String
  source : String
  url : Option String := none
  doi : Option String := none
  pages : Option String := none
  volume : Option String := none
  issue : Option String := none
  publisher : Option String := none
  type : CType
  dateAccessed : Option String := none
deriving DecidableEq

/-!
JavaScript string primitives, re-implemented by structural recursion on the
underlying character list so that concrete evaluations reduce in the kernel.
Only single-character separators occur in the source (`','`, `' '`, `'-'`).
-/

/-- Worker for `jsSplit`: scans the characters, cutting at each separator. -/
def splitCharAux (sep : Char) : List Char → List Char → List String
  | [], acc => [String.mk acc.reverse]
  | ch :: cs, acc =>
    if ch = sep then String.mk acc.reverse :: splitCharAux sep cs []
    else splitCharAux sep cs (ch :: acc)

/-- JS `s.split(sep)` for a one-character separator: `"a,b".split(',') = ["a","b"]`,
`"".split(',') = [""]`, `"a,".split(',') = ["a",""]`. -/
def jsSplit (s : String) (sep : Char) : List String :=
  splitCharAux sep s.data []

/-- JS `s.includes(ch)` for a single character. -/
def jsIncludes (s : String) (ch : Char) : Bool :=
  s.data.contains ch

/-- JS emptiness test (`s === ''`, also the falsiness of a string). -/
def jsEmpty (s : String) : Bool :=
  s.data.isEmpty

/-- JS `s.trim()`. -/
def jsTrim (s : String) : String :=
  String.mk (((s.data.dropWhile Char.isWhitespace).reverse.dropWhile Char.isWhitespace).reverse)

/-- JS `s.toLowerCase()` (ASCII, which is all the source relies on). -/
def jsToLower (s : String) : String :=
  String.mk (s.data.map Char.toLower)

/-- JS `parts.join(sep)`. -/
def jsJoin (sep : String) : List String → String
  | [] => ""
  | [s] => s
  | s :: rest => s ++ sep ++ jsJoin sep rest

/-- JS truthiness of an optional string field: `undefined` and `""` are falsy. -/
def otruthy : Option String → Bool
  | none => false
  | some s => !jsEmpty s

/-- JS truthiness of a required string field. -/
def struthy (s : String) : Bool := !jsEmpty s

/-- `r += t` guarded by `if (b)`: the conditional-append statement shape used
throughout the style formatter. -/
def appendIf (b : Bool) (s t : String) : String :=
  if b then s ++ t else s

/-- `year || 'n.d.'` from the formatter. -/
def yearOrNd (year : String) : String :=
  if jsEmpty year then "n.d." else year

/-- `authors.length > 0 ? authors.join(', ') : 'Unknown Author'`
(Bibliography.tsx line 71). -/
def authorStrOf (c : Citation) : String :=
  if c.authors.length > 0 then jsJoin ", " c.authors else "Unknown Author"

/-- `authors.length > 0 ? authors[0] : 'Unknown Author'`
(Bibliography.tsx line 156). -/
def firstAuthorOf (c : Citation) : String :=
  if c.authors.length > 0 then c.authors.headD "" else "Unknown Author"

/-- Surname extraction of `formatInTextCitation` (Bibliography.tsx line 157,
also applied to the second author on line 164):
`a.includes(',') ? a.split(',')[0] : a.split(' ').pop() || 'Unknown'`. -/
def lastNameOf (a : String) : String :=
  if jsIncludes a ',' then (jsSplit a ',').headD ""
  else
    let last := (jsSplit a ' ').getLastD ""
    if jsEmpty last then "Unknown" else last

/-- APA case of `formatCitationForExport` (Bibliography.tsx lines 74-89). -/
def formatApa (c : Citation) : String :=
  let base := authorStrOf c ++ " (" ++ yearOrNd c.year ++ "). " ++ c.title ++ "."
  if c.type = CType.journal ∧ struthy c.source then
    appendIf (otruthy c.pages)
      (appendIf (otruthy c.issue)
        (appendIf (otruthy c.volume)
          (base ++ " *" ++ c.source ++ "*")
          (", " ++ (c.volume.getD "")))
        ("(" ++ (c.issue.getD "") ++ ")"))
      (", " ++ (c.pages.getD "")) ++ "."
  else if c.type = CType.website then
    appendIf (otruthy c.url)
      (appendIf (struthy c.source) base (" *" ++ c.source ++ "*."))
      (" " ++ (c.url.getD ""))
  else
    appendIf (otruthy c.publisher)
      (appendIf (struthy c.source) base (" *" ++ c.source ++ "*."))
      (" " ++ (c.publisher.getD "") ++ ".")

/-- MLA case of `formatCitationForExport` (Bibliography.tsx lines 91-110). -/
def formatMla (c : Citation) : String :=
  let base := authorStrOf c ++ ". \"" ++ c.title ++ ".\""
  if c.type = CType.journal ∧ struthy c.source then
    appendIf (otruthy c.pages)
      (appendIf (struthy c.year)
        (appendIf (otruthy c.issue)
          (appendIf (otruthy c.volume)
            (base ++ " *" ++ c.source ++ "*")
            (", vol. " ++ (c.volume.getD "")))
          (", no. " ++ (c.issue.getD "")))
        (", " ++ c.year))
      (", pp. " ++ (c.pages.getD "")) ++ "."
  else if c.type = CType.website then
    appendIf (otruthy c.url)
      (appendIf (struthy c.year)
        (appendIf (struthy c.source) base (" *" ++ c.source ++ "*"))
        (", " ++ c.year))
      ". Web."
  else
    appendIf (struthy c.year)
      (appendIf (otruthy c.publisher)
        (appendIf (struthy c.source) base (" *" ++ c.source ++ "*."))
        (" " ++ (c.publisher.getD "")))
      (", " ++ c.year) ++ "."

/-- Chicago case of `formatCitationForExport` (Bibliography.tsx lines 112-130). -/
def formatChicago (c : Citation) : String :=
  let base := authorStrOf c ++ ". \"" ++ c.title ++ ".\""
  if c.type = CType.journal ∧ struthy c.source then
    appendIf (otruthy c.pages)
      (appendIf (struthy c.year)
        (appendIf (otruthy c.issue)
          (appendIf (otruthy c.volume)
            (base ++ " *" ++ c.source ++ "*")
            (" " ++ (c.volume.getD "")))
          (", no. " ++ (c.issue.getD "")))
        (" (" ++ c.year ++ ")"))
      (": " ++ (c.pages.getD "")) ++ "."
  else if c.type = CType.website then
    appendIf (otruthy c.url)
      (appendIf (struthy c.year)
        (appendIf (struthy c.source) base (" *" ++ c.source ++ "*."))
        (" " ++ c.year ++ "."))
      (" " ++ (c.url.getD "") ++ ".")
  else
    appendIf (struthy c.year)
      (appendIf (otruthy c.publisher) base (" " ++ (c.publisher.getD "")))
      (", " ++ c.year) ++ "."

/-- Harvard case of `formatCitationForExport` (Bibliography.tsx lines 132-147). -/
def formatHarvard (c : Citation) : String :=
  let base := authorStrOf c ++ " (" ++ yearOrNd c.year ++ ") '" ++ c.title ++ "'"
  if c.type = CType.journal ∧ struthy c.source then
    appendIf (otruthy c.pages)
      (appendIf (otruthy c.issue)
        (appendIf (otruthy c.volume)
          (base ++ ", *" ++ c.source ++ "*")
          (", vol. " ++ (c.volume.getD "")))
        (", no. " ++ (c.issue.getD "")))
      (", pp. " ++ (c.pages.getD "")) ++ "."
  else if c.type = CType.website then
    appendIf (otruthy c.url)
      (appendIf (struthy c.source) base (", *" ++ c.source ++ "*"))
      (", available at: " ++ (c.url.getD "") ++ ".")
  else
    appendIf (otruthy c.publisher) base (", " ++ (c.publisher.getD "")) ++ "."

/-- `formatCitationForExport` (Bibliography.tsx lines 69-152): dispatch on the
style string; the `default` case returns the sentinel. -/
def formatCitationForExport (c : Citation) (style : String) : String :=
  if style = "apa" then formatApa c
  else if style = "mla" then formatMla c
  else if style = "chicago" then formatChicago c
  else if style = "harvard" then formatHarvard c
  else "Unsupported citation style"

/-- `formatInTextCitation` (Bibliography.tsx lines 154-182).  Note the
`default` case returns an ordinary `(surname, year)` parenthetical, not a
sentinel. -/
def formatInTextCitation (c : Citation) (style : String) : String :=
  let authorLastName := lastNameOf (firstAuthorOf c)
  if style = "apa" then
    if c.authors.length = 1 then
      if otruthy c.pages then
        "(" ++ authorLastName ++ ", " ++ yearOrNd c.year ++ ", p. " ++ (c.pages.getD "") ++ ")"
      else "(" ++ authorLastName ++ ", " ++ yearOrNd c.year ++ ")"
    else if c.authors.length = 2 then
      let secondAuthor := lastNameOf (c.authors.getD 1 "")
      if otruthy c.pages then
        "(" ++ authorLastName ++ " & " ++ secondAuthor ++ ", " ++ yearOrNd c.year ++
          ", p. " ++ (c.pages.getD "") ++ ")"
      else "(" ++ authorLastName ++ " & " ++ secondAuthor ++ ", " ++ yearOrNd c.year ++ ")"
    else
      if otruthy c.pages then
        "(" ++ authorLastName ++ " et al., " ++ yearOrNd c.year ++ ", p. " ++
          (c.pages.getD "") ++ ")"
      else "(" ++ authorLastName ++ " et al., " ++ yearOrNd c.year ++ ")"
  else if style = "mla" then
    if otruthy c.pages then "(" ++ authorLastName ++ " " ++ (c.pages.getD "") ++ ")"
    else "(" ++ authorLastName ++ ")"
  else if style = "chicago" then
    if otruthy c.pages then
      "(" ++ authorLastName ++ " " ++ yearOrNd c.year ++ ", " ++ (c.pages.getD "") ++ ")"
    else "(" ++ authorLastName ++ " " ++ yearOrNd c.year ++ ")"
  else if style = "harvard" then
    if otruthy c.pages then
      "(" ++ authorLastName ++ " " ++ yearOrNd c.year ++ ": " ++ (c.pages.getD "") ++ ")"
    else "(" ++ authorLastName ++ " " ++ yearOrNd c.year ++ ")"
  else "(" ++ authorLastName ++ ", " ++ yearOrNd c.year ++ ")"

/-- `[^\w\s]` complement: characters kept by
`title.replace(/[^\w\s]/g, '')` in `generateCitationKey`. -/
def isWordOrSpace (ch : Char) : Bool :=
  ch.isAlphanum || ch = '_' || ch.isWhitespace

/-- `s.replace(/[^\w\s]/g, '')`. -/
def stripNonWord (s : String) : String :=
  String.mk (s.data.filter isWordOrSpace)

/-- `generateCitationKey` (exportUtils.ts lines 244-258). -/
def generateCitationKey (c : Citation) : String :=
  let firstAuthor := if jsEmpty (c.authors.headD "") then "unknown" else c.authors.headD ""
  let authorLastName :=
    if jsIncludes firstAuthor ',' then jsTrim ((jsSplit firstAuthor ',').headD "")
    else
      let last := (jsSplit firstAuthor ' ').getLastD ""
      if jsEmpty last then "unknown" else last
  let year := if jsEmpty c.year then "nd" else c.year
  let titleWords := String.join ((jsSplit (stripNonWord (jsToLower c.title)) ' ').take 3)
  jsToLower authorLastName ++ year ++ titleWords

/-- RIS `TY` tag map of `generateRISFormat` (exportUtils.ts lines 17-24).
All four `type` values are mapped, so the `|| 'GEN'` fallback is unreachable. -/
def risTypeTag : CType → String
  | .article => "JOUR"
  | .journal => "JOUR"
  | .book => "BOOK"
  | .website => "ELEC"

/-- The `SP`/`EP` lines pushed by `generateRISFormat` (exportUtils.ts lines
58-64): `SP` is `pages.split('-')[0]`, and an `EP` line with
`pages.split('-')[1]` is pushed only when `pages.includes('-')`. -/
def risPagesLines (pages : Option String) : List String :=
  if otruthy pages then
    ["SP  - " ++ (jsSplit (pages.getD "") '-').headD ""]
    ++ (if jsIncludes (pages.getD "") '-' then
          ["EP  - " ++ (jsSplit (pages.getD "") '-').getD 1 ""]
        else [])
  else []

/-- The `lines` array built per citation by `generateRISFormat`
(exportUtils.ts lines 13-89). -/
def generateRISLines (c : Citation) : List String :=
  ["TY  - " ++ risTypeTag c.type, "TI  - " ++ c.title]
  ++ c.authors.map (fun a => "AU  - " ++ a)
  ++ (if struthy c.year then ["PY  - " ++ c.year] else [])
  ++ (if struthy c.source then
        if c.type = CType.journal ∨ c.type = CType.article then ["JO  - " ++ c.source]
        else ["T2  - " ++ c.source]
      else [])
  ++ (if otruthy c.volume then ["VL  - " ++ (c.volume.getD "")] else [])
  ++ (if otruthy c.issue then ["IS  - " ++ (c.issue.getD "")] else [])
  ++ risPagesLines c.pages
  ++ (if otruthy c.publisher then ["PB  - " ++ (c.publisher.getD "")] else [])
  ++ (if otruthy c.url then ["UR  - " ++ (c.url.getD "")] else [])
  ++ (if otruthy c.doi then ["DO  - " ++ (c.doi.getD "")] else [])
  ++ (if otruthy c.dateAccessed ∧ c.type = CType.website then
        ["Y2  - " ++ (c.dateAccessed.getD "")]
      else [])
  ++ ["ER  - "]

/-- `generateRISFormat` (exportUtils.ts lines 12-93): per-citation line blocks
joined by blank lines. -/
def generateRISFormat (cs : List Citation) : String :=
  jsJoin "\n\n" (cs.map (fun c => jsJoin "\n" (generateRISLines c)))

/-- BibTeX entry-type map of `generateBibTeXFormat` (exportUtils.ts lines 104-109);
the `|| 'misc'` fallback is unreachable. -/
def bibtexEntryType : CType → String
  | .article => "article"
  | .journal => "article"
  | .book => "book"
  | .website => "misc"

/-- The `lines` array built per citation by `generateBibTeXFormat`
(exportUtils.ts lines 99-166).  The final `else` of the type chain is
the `website` case. -/
def generateBibTeXLines (c : Citation) : List String :=
  ["@" ++ bibtexEntryType c.type ++ "\x7b" ++ generateCitationKey c ++ ",",
   "  title=\x7b" ++ c.title ++ "\x7d,"]
  ++ (if c.authors.length > 0 then
        ["  author=\x7b" ++ jsJoin " and " c.authors ++ "\x7d,"]
      else [])
  ++ (if struthy c.year then ["  year=\x7b" ++ c.year ++ "\x7d,"] else [])
  ++ (if c.type = CType.journal ∨ c.type = CType.article then
        (if struthy c.source then ["  journal=\x7b" ++ c.source ++ "\x7d,"] else [])
        ++ (if otruthy c.volume then ["  volume=\x7b" ++ (c.volume.getD "") ++ "\x7d,"] else [])
        ++ (if otruthy c.issue then ["  number=\x7b" ++ (c.issue.getD "") ++ "\x7d,"] else [])
        ++ (if otruthy c.pages then ["  pages=\x7b" ++ (c.pages.getD "") ++ "\x7d,"] else [])
      else if c.type = CType.book then
        (if otruthy c.publisher then ["  publisher=\x7b" ++ (c.publisher.getD "") ++ "\x7d,"] else [])
      else
        (if struthy c.source then
           ["  howpublished=\x7b\\url\x7b" ++
              (if otruthy c.url then c.url.getD "" else c.source) ++ "\x7d\x7d,"]
         else [])
        ++ (if otruthy c.dateAccessed then
              ["  note=\x7bAccessed: " ++ (c.dateAccessed.getD "") ++ "\x7d,"]
            else []))
  ++ (if otruthy c.url then ["  url=\x7b" ++ (c.url.getD "") ++ "\x7d,"] else [])
  ++ (if otruthy c.doi then ["  doi=\x7b" ++ (c.doi.getD "") ++ "\x7d,"] else [])
  ++ ["\x7d"]

/-- `generateBibTeXFormat` (exportUtils.ts lines 98-169). -/
def generateBibTeXFormat (cs : List Citation) : String :=
  jsJoin "\n\n" (cs.map (fun c => jsJoin "\n" (generateBibTeXLines c)))

/-- EndNote `%0` reference-type map (exportUtils.ts lines 179-184);
the `|| '13'` fallback is unreachable. -/
def endnoteRefCode : CType → String
  | .article => "0"
  | .journal => "0"
  | .book => "6"
  | .website => "12"

/-- The `lines` array built per citation by `generateEndNoteFormat`
(exportUtils.ts lines 175-235). -/
def generateEndNoteLines (c : Citation) : List String :=
  ["%0 " ++ endnoteRefCode c.type, "%T " ++ c.title]
  ++ c.authors.map (fun a => "%A " ++ a)
  ++ (if struthy c.year then ["%D " ++ c.year] else [])
  ++ (if struthy c.source then
        if c.type = CType.journal ∨ c.type = CType.article then ["%J " ++ c.source]
        else ["%B " ++ c.source]
      else [])
  ++ (if otruthy c.volume then ["%V " ++ (c.volume.getD "")] else [])
  ++ (if otruthy c.issue then ["%N " ++ (c.issue.getD "")] else [])
  ++ (if otruthy c.pages then ["%P " ++ (c.pages.getD "")] else [])
  ++ (if otruthy c.publisher then ["%I " ++ (c.publisher.getD "")] else [])
  ++ (if otruthy c.url then ["%U " ++ (c.url.getD "")] else [])

/-- `generateEndNoteFormat` (exportUtils.ts lines 174-239). -/
def generateEndNoteFormat (cs : List Citation) : String :=
  jsJoin "\n\n" (cs.map (fun c => jsJoin "\n" (generateEndNoteLines c)))

/-- The two error kinds thrown by `exportToFile`: the empty-collection
validation error and the unsupported-format error (spec taxonomy
`ValidationError` / `UnsupportedFormatError`); each carries the thrown
`Error` message. -/
inductive ExportError where
  | validation (msg : String)
  | unsupportedFormat (msg : String)
deriving DecidableEq

/-- `exportToFile` (exportUtils.ts lines 263-306), modelled up to the produced
payload: on success it returns the encoded content, file extension and MIME
type that the browser-download tail of the function writes out.  The format
argument is a plain string, as a JS caller may pass any value.  Note the
`switch` has no case for `'text'` even though `'text'` is declared in the
`ExportFormat` union (exportUtils.ts line 7). -/
def exportToFile (citations : List Citation) (format : String) :
    Except ExportError (String × String × String) :=
  if citations.length = 0 then
    Except.error (ExportError.validation "No citations to export")
  else if format = "ris" ∨ format = "zotero" ∨ format = "mendeley" then
    Except.ok (generateRISFormat citations, "ris", "application/x-research-info-systems")
  else if format = "bibtex" then
    Except.ok (generateBibTeXFormat citations, "bib", "text/plain")
  else if format = "endnote" then
    Except.ok (generateEndNoteFormat citations, "enw", "text/plain")
  else
    Except.error (ExportError.unsupportedFormat ("Unsupported export format: " ++ format))

/-- CSV header row of the `csv` case of `exportBibliography`
(unnamed part_002 line 258). -/
def csvHeaders : String :=
  "Title,Authors,Year,Source,Type,URL,DOI,Pages,Volume,Issue"

/-- One CSV row (unnamed part_002 lines 259-261): every field double-quote
wrapped, authors joined with `; `, optional fields defaulted to `''`. -/
def csvRow (c : Citation) : String :=
  "\"" ++ c.title ++ "\",\"" ++ jsJoin "; " c.authors ++ "\",\"" ++ c.year ++ "\",\"" ++
    c.source ++ "\",\"" ++ c.type.str ++ "\",\"" ++ (c.url.getD "") ++ "\",\"" ++
    (c.doi.getD "") ++ "\",\"" ++ (c.pages.getD "") ++ "\",\"" ++ (c.volume.getD "") ++
    "\",\"" ++ (c.issue.getD "") ++ "\""

/-- CSV content of the `csv` case of `exportBibliography` (unnamed part_002
lines 257-262): `[csvHeaders, ...csvRows].join('\n')`. -/
def csvExport (cs : List Citation) : String :=
  jsJoin "\n" (csvHeaders :: cs.map csvRow)

/-- One RIS block of the `ris` case of `exportBibliography` (unnamed part_002
lines 287-298).  Unlike `generateRISFormat`, this template always emits an
`EP` line when pages are present, falling back to the start page
(`pages.split('-')[1] || pages.split('-')[0]`). -/
def part002RisEntry (c : Citation) : String :=
  "TY  - JOUR\nTI  - " ++ c.title ++ "\n" ++
    jsJoin "\n" (c.authors.map (fun a => "AU  - " ++ a)) ++
    "\nPY  - " ++ c.year ++ "\nJO  - " ++ c.source ++ "\n" ++
    (if otruthy c.volume then "VL  - " ++ (c.volume.getD "") else "") ++ "\n" ++
    (if otruthy c.issue then "IS  - " ++ (c.issue.getD "") else "") ++ "\n" ++
    (if otruthy c.pages then
       "SP  - " ++ (jsSplit (c.pages.getD "") '-').headD "" ++ "\nEP  - " ++
         (let p1 := (jsSplit (c.pages.getD "") '-').getD 1 ""
          if jsEmpty p1 then (jsSplit (c.pages.getD "") '-').headD "" else p1)
     else "") ++ "\n" ++
    (if otruthy c.doi then "DO  - " ++ (c.doi.getD "") else "") ++ "\n" ++
    (if otruthy c.url then "UR  - " ++ (c.url.getD "") else "") ++ "\nER  -"

/-- RIS content of the `ris` case of `exportBibliography` (unnamed part_002
lines 286-299). -/
def part002RisExport (cs : List Citation) : String :=
  jsJoin "\n\n" (cs.map part002RisEntry)

/-- `updateCitation` (App.tsx lines 49-53): full-record replace-by-id over the
saved collection. -/
def updateCitation (citations : List Citation) (id : String)
    (updatedCitation : Citation) : List Citation :=
  citations.map (fun citation => if citation.id = id then updatedCitation else citation)

/-- The manual form's `SourceType` (CombinedCitationForm.tsx line 48): the four
persisted variants plus the four UI-only subtypes. -/
inductive SourceType where
  | article
  | book
  | website
  | journal
  | newspaper
  | thesis
  | conference
  | report
deriving DecidableEq

/-- The nested-conditional `type:` mapping of `handleManualSubmit`
(CombinedCitationForm.tsx lines 413-418): `journal`, `newspaper`,
`conference`, `thesis` and `report` all collapse to `'article'`; the
remaining cases pass `formData.type` through. -/
def submittedCitationType : SourceType → CType
  | .journal => CType.article
  | .newspaper => CType.article
  | .conference => CType.article
  | .thesis => CType.article
  | .report => CType.article
  | .article => CType.article
  | .book => CType.book
  | .website => CType.website

/-- The manual form's `formData` state (CombinedCitationForm.tsx lines 50-67). -/
structure FormData where
  type : SourceType
  title : String := ""
  authors : String := ""
  year : String := ""
  source : String := ""
  url : String := ""
  doi : String := ""
  pages : String := ""
  volume : String := ""
  issue : String := ""
  publisher : String := ""
  edition : String := ""
  city : String := ""
  isbn : String := ""
  dateAccessed : String := ""
  abstract : String := ""
deriving DecidableEq

/-- The `Citation` built by `handleManualSubmit` (CombinedCitationForm.tsx
lines 401-420).  The generated id (`manual-${Date.now()}-…`) and
`new Date().toISOString()` are environment inputs, passed as parameters. -/
def manualSubmitCitation (fd : FormData) (genId now : String) : Citation :=
  { id := genId
    title := fd.title
    authors := ((jsSplit fd.authors ',').map jsTrim).filter (fun a => !jsEmpty a)
    year := fd.year
    source := if jsEmpty fd.source then fd.publisher else fd.source
    url := if jsEmpty fd.url then none else some fd.url
    doi := if jsEmpty fd.doi then none else some fd.doi
    pages := if jsEmpty fd.pages then none else some fd.pages
    volume := if jsEmpty fd.volume then none else some fd.volume
    issue := if jsEmpty fd.issue then none else some fd.issue
    publisher := if jsEmpty fd.publisher then none else some fd.publisher
    type := submittedCitationType fd.type
    dateAccessed := some (if jsEmpty fd.dateAccessed then now else fd.dateAccessed) }

/-!
Specification-side predicates and concrete test records used by the theorems.
-/

/-- `needle` occurs as a contiguous substring of `hay`. -/
def strContains (hay needle : String) : Prop :=
  ∃ pre post, hay = pre ++ (needle ++ post)

/-- Executable test that one character list leads (starts) another. -/
def leadsWith : List Char → List Char → Bool
  | [], _ => true
  | _ :: _, [] => false
  | x :: xs, y :: ys => x = y && leadsWith xs ys

/-- Worker for `containsStr`: tries `leadsWith` at every suffix. -/
def containsAux (needle : List Char) : List Char → Bool
  | [] => leadsWith needle []
  | y :: ys => leadsWith needle (y :: ys) || containsAux needle ys

/-- Executable substring test, for concrete evaluations. -/
def containsStr (hay needle : String) : Bool :=
  containsAux needle.data hay.data

/-- The two-character tag a RIS line starts with. -/
def risTag (l : String) : String :=
  String.mk (l.data.take 2)

/-- `s` contains no newline character. -/
def noNl (s : String) : Bool :=
  !s.data.contains '\n'

/-- No field interpolated into a CSV row contains a newline character. -/
def citationNewlineFree (c : Citation) : Bool :=
  noNl c.title && c.authors.all noNl && noNl c.year && noNl c.source &&
    noNl (c.url.getD "") && noNl (c.doi.getD "") && noNl (c.pages.getD "") &&
    noNl (c.volume.getD "") && noNl (c.issue.getD "")

/-- The journal record of the spec's end-to-end APA scenario. -/
def rClimate : Citation :=
  { id := "c1", title := "Climate Models", authors := ["Lee, A.", "Kim, B."],
    year := "2021", source := "Nature", type := CType.journal,
    volume := some "12", issue := some "4", pages := some "10-20" }

/-- The record of the spec's BibTeX-key determinism scenario. -/
def rSmith : Citation :=
  { id := "c2", title := "Deep Learning for X", authors := ["Smith, John"],
    year := "2023", source := "Nature", type := CType.journal }

/-- A record with an empty author list. -/
def rAnon : Citation :=
  { id := "c5", title := "Untitled Note", authors := [], year := "",
    source := "Example Site", type := CType.website }

/-- A plain one-author article record. -/
def rLee : Citation :=
  { id := "c7", title := "On Things", authors := ["Lee, A."], year := "2021",
    source := "Journal of Things", type := CType.article }

/-- A record with a page range. -/
def rPagesRange : Citation :=
  { id := "c6a", title := "Ranged", authors := ["Doe, J."], year := "2019",
    source := "J", type := CType.journal, pages := some "123-145" }

/-- A record with a single page number (no hyphen). -/
def rPagesSingle : Citation :=
  { id := "c6b", title := "Single", authors := ["Doe, J."], year := "2020",
    source := "J", type := CType.journal, pages := some "99" }

/-- A record whose title embeds a newline character. -/
def rNlTitle : Citation :=
  { id := "c8n", title := "Line1\nLine2", authors := ["Ann Smith"], year := "2001",
    source := "S", type := CType.article }

/-- A newline-free record for CSV tests. -/
def rCsvA : Citation :=
  { id := "c8a", title := "Alpha", authors := ["Ann Smith", "Bob Jones"],
    year := "2001", source := "S1", type := CType.article, pages := some "1-2" }

/-- A second newline-free record for CSV tests. -/
def rCsvB : Citation :=
  { id := "c8b", title := "Beta", authors := [], year := "", source := "S2",
    type := CType.book, publisher := some "Pub" }

/-- A minimal record with every optional field absent. -/
def rMinimal : Citation :=
  { id := "c4", title := "Bare", authors := [], year := "", source := "",
    type := CType.article }

/-- Demo collection member for `updateCitation`. -/
def cFirst : Citation :=
  { id := "a", title := "First", authors := ["X, Y"], year := "1999",
    source := "S", type := CType.article }

/-- Second demo collection member for `updateCitation`. -/
def cSecond : Citation :=
  { id := "b", title := "Second", authors := ["Z, W"], year := "2000",
    source := "S", type := CType.book }

/-- Replacement record for `updateCitation`. -/
def cReplacement : Citation :=
  { id := "b", title := "Second Edited", authors := ["Z, W"], year := "2001",
    source := "S", type := CType.book }

/-!
General helper lemmas about the string model.
-/

theorem strData_append (a b : String) : (a ++ b).data = a.data ++ b.data := rfl

theorem strData_empty : ("" : String).data = [] := rfl

theorem str_ext {a b : String} (h : a.data = b.data) : a = b := by
  cases a
  cases b
  exact congrArg String.mk h

theorem strAppend_empty (s : String) : s ++ "" = s := by
  apply str_ext
  simp [strData_append, strData_empty]

theorem strContains_head (n r : String) : strContains (n ++ r) n :=
  ⟨"", r, rfl⟩

theorem strContains_self (n : String) : strContains n n :=
  ⟨"", "", by apply str_ext; simp [strData_append, strData_empty]⟩

theorem strContains_append_right {hay n : String} (t : String)
    (h : strContains hay n) : strContains (hay ++ t) n := by
  obtain ⟨p, q, hpq⟩ := h
  refine ⟨p, q ++ t, ?_⟩
  subst hpq
  apply str_ext
  simp [strData_append]

theorem strContains_appendIf {s n : String} (b : Bool) (t : String)
    (h : strContains s n) : strContains (appendIf b s t) n := by
  unfold appendIf
  split
  · exact strContains_append_right t h
  · exact h

theorem take_of_append (p s : String) (k : Nat) (hk : k ≤ p.data.length) :
    (p ++ s).data.take k = p.data.take k := by
  rw [strData_append]
  exact List.take_append_of_le_length hk

theorem append_ne_append_of_take (p q s t : String) (k : Nat)
    (hp : k ≤ p.data.length) (hq : k ≤ q.data.length)
    (h : p.data.take k ≠ q.data.take k) : p ++ s ≠ q ++ t := by
  intro he
  apply h
  rw [← take_of_append p s k hp, ← take_of_append q t k hq, he]

theorem risTag_append (p s : String) (hp : 2 ≤ p.data.length) :
    risTag (p ++ s) = risTag p := by
  unfold risTag
  rw [take_of_append p s 2 hp]

theorem mem_of_mem_ite_nil {α : Type} {p : Prop} [Decidable p] {x : α}
    {l : List α} (h : x ∈ (if p then l else [])) : x ∈ l := by
  split at h
  · exact h
  · exact absurd h (List.not_mem_nil x)

theorem risTag_ne_of_mem_singleton_append {l p s tag : String}
    (h : l ∈ [p ++ s]) (hp : 2 ≤ p.data.length) (hne : risTag p ≠ tag) :
    risTag l ≠ tag := by
  rw [List.mem_singleton.1 h, risTag_append p s hp]
  exact hne

theorem splitCharAux_no_sep (sep : Char) (xs acc : List Char)
    (h : ∀ x ∈ xs, x ≠ sep) :
    splitCharAux sep xs acc = [String.mk (acc.reverse ++ xs)] := by
  induction xs generalizing acc with
  | nil => simp [splitCharAux]
  | cons x xs ih =>
    rw [splitCharAux, if_neg (h x (List.mem_cons_self x xs)),
      ih _ (fun y hy => h y (List.mem_cons_of_mem x hy))]
    simp

theorem splitCharAux_sep (sep : Char) (xs ys acc : List Char)
    (h : ∀ x ∈ xs, x ≠ sep) :
    splitCharAux sep (xs ++ sep :: ys) acc =
      String.mk (acc.reverse ++ xs) :: splitCharAux sep ys [] := by
  induction xs generalizing acc with
  | nil => simp [splitCharAux]
  | cons x xs ih =>
    rw [List.cons_append, splitCharAux, if_neg (h x (List.mem_cons_self x xs)),
      ih _ (fun y hy => h y (List.mem_cons_of_mem x hy))]
    simp

theorem jsSplit_nl_cut (a b : String) (ha : ∀ x ∈ a.data, x ≠ '\n') :
    jsSplit (a ++ ("\n" ++ b)) '\n' = a :: jsSplit b '\n' := by
  show splitCharAux '\n' (a.data ++ '\n' :: b.data) [] = _
  rw [splitCharAux_sep '\n' a.data b.data [] ha]
  rfl

theorem jsSplit_no_sep (a : String) (sep : Char) (ha : ∀ x ∈ a.data, x ≠ sep) :
    jsSplit a sep = [a] := by
  unfold jsSplit
  rw [splitCharAux_no_sep sep a.data [] ha]
  rfl

theorem getElem?_map_eq {α β : Type} (f : α → β) (l : List α) (i : Nat) :
    (l.map f)[i]? = (l[i]?).map f := by
  induction l generalizing i with
  | nil => simp
  | cons x xs ih =>
    cases i with
    | zero => simp
    | succ j => simp [ih j]

theorem noNl_spec {s : String} (h : noNl s = true) : ∀ x ∈ s.data, x ≠ '\n' := by
  intro x hx he
  subst he
  unfold noNl at h
  simp at h
  exact h hx

theorem no_nl_append {a b : String} (ha : ∀ x ∈ a.data, x ≠ '\n')
    (hb : ∀ x ∈ b.data, x ≠ '\n') : ∀ x ∈ (a ++ b).data, x ≠ '\n' := by
  intro x hx
  rw [strData_append] at hx
  rcases List.mem_append.1 hx with h | h
  · exact ha x h
  · exact hb x h

theorem no_nl_jsJoin {sep : String} (hsep : ∀ x ∈ sep.data, x ≠ '\n')
    {l : List String} (hl : ∀ s ∈ l, ∀ x ∈ s.data, x ≠ '\n') :
    ∀ x ∈ (jsJoin sep l).data, x ≠ '\n' := by
  induction l with
  | nil =>
    intro x hx
    simp [jsJoin, strData_empty] at hx
  | cons s rest ih =>
    cases rest with
    | nil => exact fun x hx => hl s (by simp) x hx
    | cons r rs =>
      exact no_nl_append (no_nl_append (hl s (by simp)) hsep)
        (ih (fun t ht => hl t (List.mem_cons_of_mem s ht)))

/-!
Claim theorems.
-/

/-- C1: for the Climate-Models journal record, the full APA citation is exactly
`Lee, A., Kim, B. (2021). Climate Models. *Nature*, 12(4), 10-20.`; but the
claimed in-text citation `(Lee & Kim, 2021)` is wrong — the record has pages,
so `formatInTextCitation` appends `, p. 10-20`. -/
theorem claim_C1_counterexample :
    formatInTextCitation rClimate "apa" ≠ "(Lee & Kim, 2021)" := by decide

/-- C1 (amended): the full APA citation for the Climate-Models record is
exactly the claimed string, and the APA in-text citation is
`(Lee & Kim, 2021, p. 10-20)` (the page locator is included because the
record's `pages` field is set). -/
theorem claim_C1 :
    formatCitationForExport rClimate "apa" =
      "Lee, A., Kim, B. (2021). Climate Models. *Nature*, 12(4), 10-20." ∧
    formatInTextCitation rClimate "apa" = "(Lee & Kim, 2021, p. 10-20)" := by
  exact ⟨by decide, by decide⟩

/-- C2: the claimed key `smith2023deeplearningforx` is wrong — the code keeps
only the first three title words, so the fourth word `x` is dropped. -/
theorem claim_C2_counterexample :
    generateCitationKey rSmith ≠ "smith2023deeplearningforx" := by decide

/-- C2 (amended): the BibTeX key is lowercased surname (or `unknown`), then
year (or `nd`), then the first three title words lowercased and stripped of
non-word characters: the Smith record yields `smith2023deeplearningfor`, and a
record with no authors and no year yields the `unknown`/`nd` fallbacks. -/
theorem claim_C2 :
    generateCitationKey rSmith = "smith2023deeplearningfor" ∧
    generateCitationKey rMinimal = "unknownndbare" := by
  exact ⟨by decide, by decide⟩

/-- C3: `exportToFile` throws the empty-collection `ValidationError`
(`'No citations to export'`) exactly when the record list is empty, for every
format string — supported or not — because the emptiness check precedes the
format `switch`. -/
theorem claim_C3 (citations : List Citation) (format : String) :
    exportToFile citations format =
      Except.error (ExportError.validation "No citations to export") ↔
      citations = [] := by
  cases citations with
  | nil => simp [exportToFile]
  | cons c rest =>
    apply iff_of_false
    · intro h
      unfold exportToFile at h
      rw [if_neg (by simp)] at h
      split at h
      · simp_all
      · split at h
        · simp_all
        · split at h
          · simp_all
          · simp_all
    · simp

/-- C4: with a non-empty record list, `exportToFile` rejects the format
`'text'` with an `UnsupportedFormatError` even though `'text'` is declared in
its own `ExportFormat` union (and the spec lists plain text as supported):
the `switch` has no `'text'` case, so it falls into `default` and throws. -/
theorem claim_C4 :
    exportToFile [rMinimal] "text" =
      Except.error
        (ExportError.unsupportedFormat "Unsupported export format: text") := rfl

/-- C9: `updateCitation` preserves the length and order of the citation list:
position by position, an entry whose id differs from the given id is left
unchanged, and an entry whose id equals the given id is replaced by the given
record. -/
theorem claim_C9 (citations : List Citation) (id : String)
    (updatedCitation : Citation) :
    (updateCitation citations id updatedCitation).length = citations.length ∧
    (∀ (i : Nat) (c : Citation), citations[i]? = some c → c.id ≠ id →
      (updateCitation citations id updatedCitation)[i]? = some c) ∧
    (∀ (i : Nat) (c : Citation), citations[i]? = some c → c.id = id →
      (updateCitation citations id updatedCitation)[i]? = some updatedCitation) := by
  refine ⟨by simp [updateCitation], ?_, ?_⟩
  · intro i c hi hne
    unfold updateCitation
    rw [getElem?_map_eq, hi]
    simp [hne]
  · intro i c hi he
    unfold updateCitation
    rw [getElem?_map_eq, hi]
    simp [he]

/-- C9 witness: on a two-element collection, replacing id `b` keeps the
length, keeps the first entry, and swaps in the replacement at position 1. -/
theorem claim_C9_witness :
    (updateCitation [cFirst, cSecond] "b" cReplacement).length = 2 ∧
    (updateCitation [cFirst, cSecond] "b" cReplacement)[0]? = some cFirst ∧
    (updateCitation [cFirst, cSecond] "b" cReplacement)[1]? = some cReplacement := by
  refine ⟨?_, ?_, ?_⟩
  · exact (claim_C9 [cFirst, cSecond] "b" cReplacement).1
  · exact (claim_C9 [cFirst, cSecond] "b" cReplacement).2.1 0 cFirst rfl (by decide)
  · exact (claim_C9 [cFirst, cSecond] "b" cReplacement).2.2 1 cSecond rfl rfl

/-- C10: every citation built by the combined form's submit handler has type
`article`, `website` or `book` — the `journal`, `newspaper`, `conference`,
`thesis` and `report` subtypes are all collapsed to `article`, so a manually
entered source is never stored with type `journal`. -/
theorem claim_C10 (fd : FormData) (genId now : String) :
    ((manualSubmitCitation fd genId now).type = CType.article ∨
     (manualSubmitCitation fd genId now).type = CType.website ∨
     (manualSubmitCitation fd genId now).type = CType.book) ∧
    (manualSubmitCitation fd genId now).type ≠ CType.journal := by
  cases hfd : fd.type <;> simp [manualSubmitCitation, submittedCitationType, hfd]

/-- With no authors, the full-citation author string is the placeholder. -/
theorem authorStr_of_noauthors {c : Citation} (h : c.authors = []) :
    authorStrOf c = "Unknown Author" := by
  simp [authorStrOf, h]

theorem formatApa_unknown {c : Citation} (h : c.authors = []) :
    strContains (formatApa c) "Unknown Author" := by
  simp only [formatApa, authorStr_of_noauthors h]
  split <;> try split
  all_goals
    repeat
      first
      | exact strContains_head _ _
      | exact strContains_self _
      | apply strContains_appendIf
      | apply strContains_append_right

theorem formatMla_unknown {c : Citation} (h : c.authors = []) :
    strContains (formatMla c) "Unknown Author" := by
  simp only [formatMla, authorStr_of_noauthors h]
  split <;> try split
  all_goals
    repeat
      first
      | exact strContains_head _ _
      | exact strContains_self _
      | apply strContains_appendIf
      | apply strContains_append_right

theorem formatChicago_unknown {c : Citation} (h : c.authors = []) :
    strContains (formatChicago c) "Unknown Author" := by
  simp only [formatChicago, authorStr_of_noauthors h]
  split <;> try split
  all_goals
    repeat
      first
      | exact strContains_head _ _
      | exact strContains_self _
      | apply strContains_appendIf
      | apply strContains_append_right

theorem formatHarvard_unknown {c : Citation} (h : c.authors = []) :
    strContains (formatHarvard c) "Unknown Author" := by
  simp only [formatHarvard, authorStr_of_noauthors h]
  split <;> try split
  all_goals
    repeat
      first
      | exact strContains_head _ _
      | exact strContains_self _
      | apply strContains_appendIf
      | apply strContains_append_right

/-- With no authors, the in-text surname is the last word of the
`'Unknown Author'` placeholder, i.e. `Author`. -/
theorem lastName_of_noauthors {c : Citation} (h : c.authors = []) :
    lastNameOf (firstAuthorOf c) = "Author" := by
  have h1 : firstAuthorOf c = "Unknown Author" := by simp [firstAuthorOf, h]
  rw [h1]
  decide

/-- C5: the claimed in-text surname `Unknown` is wrong — for a record with no
authors the in-text citation uses `Author` (the last whitespace-delimited
token of the `'Unknown Author'` placeholder): the MLA in-text citation is
`(Author)`, which does not even contain `Unknown`. -/
theorem claim_C5_counterexample :
    formatInTextCitation rAnon "mla" = "(Author)" ∧
    containsStr (formatInTextCitation rAnon "mla") "Unknown" = false :=
  ⟨by decide, by decide⟩

/-- C5 (amended): for every record with an empty author list, the full
citation in each of the four styles contains the literal `Unknown Author`,
while the in-text citation uses `Author` as the surname. -/
theorem claim_C5 (c : Citation) (h : c.authors = []) :
    strContains (formatCitationForExport c "apa") "Unknown Author" ∧
    strContains (formatCitationForExport c "mla") "Unknown Author" ∧
    strContains (formatCitationForExport c "chicago") "Unknown Author" ∧
    strContains (formatCitationForExport c "harvard") "Unknown Author" ∧
    lastNameOf (firstAuthorOf c) = "Author" :=
  ⟨formatApa_unknown h, formatMla_unknown h, formatChicago_unknown h,
    formatHarvard_unknown h, lastName_of_noauthors h⟩

/-- C5 witness: the amended claim at a concrete record with no authors. -/
theorem claim_C5_witness :
    strContains (formatCitationForExport rAnon "apa") "Unknown Author" ∧
    strContains (formatCitationForExport rAnon "mla") "Unknown Author" ∧
    strContains (formatCitationForExport rAnon "chicago") "Unknown Author" ∧
    strContains (formatCitationForExport rAnon "harvard") "Unknown Author" ∧
    lastNameOf (firstAuthorOf rAnon) = "Author" :=
  claim_C5 rAnon rfl

/-- C7: the claim is wrong for the in-text formatter — with an unrecognized
style it does not return a sentinel; its `default` branch returns an ordinary
`(surname, year)` citation, here `(Lee, 2021)`, which contains no
`Unsupported` marker. (No exception is raised: the function is total.) -/
theorem claim_C7_counterexample :
    formatInTextCitation rLee "vancouver" = "(Lee, 2021)" ∧
    containsStr (formatInTextCitation rLee "vancouver") "Unsupported" = false :=
  ⟨by decide, by decide⟩

/-- C7 (amended): for every record and every style outside
`{apa, mla, chicago, harvard}`, the full-citation formatter returns the
sentinel `Unsupported citation style`, while the in-text formatter falls back
to the APA-like `(surname, year)` parenthetical; neither raises (both are
total functions). -/
theorem claim_C7 (c : Citation) (style : String) (h1 : style ≠ "apa")
    (h2 : style ≠ "mla") (h3 : style ≠ "chicago") (h4 : style ≠ "harvard") :
    formatCitationForExport c style = "Unsupported citation style" ∧
    formatInTextCitation c style =
      "(" ++ lastNameOf (firstAuthorOf c) ++ ", " ++ yearOrNd c.year ++ ")" := by
  constructor
  · unfold formatCitationForExport
    rw [if_neg h1, if_neg h2, if_neg h3, if_neg h4]
  · simp only [formatInTextCitation]
    rw [if_neg h1, if_neg h2, if_neg h3, if_neg h4]

/-- C7 witness: the amended claim at a concrete record and the style
`vancouver`. -/
theorem claim_C7_witness :
    formatCitationForExport rLee "vancouver" = "Unsupported citation style" ∧
    formatInTextCitation rLee "vancouver" =
      "(" ++ lastNameOf (firstAuthorOf rLee) ++ ", " ++ yearOrNd rLee.year ++ ")" :=
  claim_C7 rLee "vancouver" (by decide) (by decide) (by decide) (by decide)

/-- The string form of any `CType` contains no newline. -/
theorem ctypeStr_no_nl (t : CType) : ∀ x ∈ (CType.str t).data, x ≠ '\n' := by
  cases t <;> decide

/-- C6: the claim is wrong for the inline RIS export of the Bibliography
variant (unnamed part_002): for a record with `pages = "99"` that exporter
emits an `EP` line anyway, reusing the start page
(`pages.split('-')[1] || pages.split('-')[0]`), so the output contains
`EP  - 99`. -/
theorem claim_C6_counterexample :
    containsStr (part002RisExport [rPagesSingle]) "EP  - 99" = true := by decide

/-- C6 (amended): in `generateRISFormat` (exportUtils.ts), whose per-record
line array is `generateRISLines`, a record with `pages = "123-145"` produces
both the `SP  - 123` and the `EP  - 145` line, and a record with
`pages = "99"` produces `SP  - 99` and no line tagged `EP` at all; the inline
RIS export of the Bibliography variant (part_002) instead always emits an
`EP` line, falling back to the start page. -/
theorem claim_C6 :
    (∀ c : Citation, c.pages = some "123-145" →
      "SP  - 123" ∈ generateRISLines c ∧ "EP  - 145" ∈ generateRISLines c) ∧
    (∀ c : Citation, c.pages = some "99" →
      "SP  - 99" ∈ generateRISLines c ∧
        ∀ l ∈ generateRISLines c, risTag l ≠ "EP") := by
  have hsegR : risPagesLines (some "123-145") = ["SP  - 123", "EP  - 145"] := by
    decide
  have hsegS : risPagesLines (some "99") = ["SP  - 99"] := by decide
  constructor
  · intro c hp
    simp only [generateRISLines, hp, hsegR]
    constructor
    · exact List.mem_append_left _ (List.mem_append_left _ (List.mem_append_left _
        (List.mem_append_left _ (List.mem_append_left _
          (List.mem_append_right _ (by decide))))))
    · exact List.mem_append_left _ (List.mem_append_left _ (List.mem_append_left _
        (List.mem_append_left _ (List.mem_append_left _
          (List.mem_append_right _ (by decide))))))
  · intro c hp
    constructor
    · simp only [generateRISLines, hp, hsegS]
      exact List.mem_append_left _ (List.mem_append_left _ (List.mem_append_left _
        (List.mem_append_left _ (List.mem_append_left _
          (List.mem_append_right _ (by decide))))))
    · intro l hl
      simp only [generateRISLines, hp, hsegS] at hl
      rcases List.mem_append.1 hl with hl | h
      · rcases List.mem_append.1 hl with hl | h
        · rcases List.mem_append.1 hl with hl | h
          · rcases List.mem_append.1 hl with hl | h
            · rcases List.mem_append.1 hl with hl | h
              · rcases List.mem_append.1 hl with hl | h
                · rcases List.mem_append.1 hl with hl | h
                  · rcases List.mem_append.1 hl with hl | h
                    · rcases List.mem_append.1 hl with hl | h
                      · rcases List.mem_append.1 hl with hl | h
                        · rcases List.mem_append.1 hl with h | h
                          · rcases List.mem_cons.1 h with he | h
                            · rw [he, risTag_append _ _ (by decide)]
                              decide
                            · rcases List.mem_cons.1 h with he | h
                              · rw [he, risTag_append _ _ (by decide)]
                                decide
                              · exact absurd h (List.not_mem_nil l)
                          · obtain ⟨a, _, hfa⟩ := List.mem_map.1 h
                            rw [← hfa, risTag_append _ _ (by decide)]
                            decide
                        · have h := mem_of_mem_ite_nil h
                          exact risTag_ne_of_mem_singleton_append h (by decide)
                            (by decide)
                      · have h := mem_of_mem_ite_nil h
                        split at h
                        · exact risTag_ne_of_mem_singleton_append h (by decide)
                            (by decide)
                        · exact risTag_ne_of_mem_singleton_append h (by decide)
                            (by decide)
                    · have h := mem_of_mem_ite_nil h
                      exact risTag_ne_of_mem_singleton_append h (by decide)
                        (by decide)
                  · have h := mem_of_mem_ite_nil h
                    exact risTag_ne_of_mem_singleton_append h (by decide)
                      (by decide)
                · rw [List.mem_singleton.1 h]
                  decide
              · have h := mem_of_mem_ite_nil h
                exact risTag_ne_of_mem_singleton_append h (by decide) (by decide)
            · have h := mem_of_mem_ite_nil h
              exact risTag_ne_of_mem_singleton_append h (by decide) (by decide)
          · have h := mem_of_mem_ite_nil h
            exact risTag_ne_of_mem_singleton_append h (by decide) (by decide)
        · have h := mem_of_mem_ite_nil h
          exact risTag_ne_of_mem_singleton_append h (by decide) (by decide)
      · rw [List.mem_singleton.1 h]
        decide

/-- C6 witness: the amended claim at concrete records with `pages = "123-145"`
and `pages = "99"`. -/
theorem claim_C6_witness :
    "EP  - 145" ∈ generateRISLines rPagesRange ∧
    "SP  - 99" ∈ generateRISLines rPagesSingle :=
  ⟨(claim_C6.1 rPagesRange rfl).2, (claim_C6.2 rPagesSingle rfl).1⟩

/-- A CSV row contains no newline when none of the record's fields does. -/
theorem csvRow_no_nl {c : Citation} (h : citationNewlineFree c = true) :
    ∀ x ∈ (csvRow c).data, x ≠ '\n' := by
  unfold citationNewlineFree at h
  simp only [Bool.and_eq_true] at h
  obtain ⟨⟨⟨⟨⟨⟨⟨⟨h1, h2⟩, h3⟩, h4⟩, h5⟩, h6⟩, h7⟩, h8⟩, h9⟩ := h
  unfold csvRow
  repeat' apply no_nl_append
  all_goals
    first
    | decide
    | exact noNl_spec h1
    | exact noNl_spec h3
    | exact noNl_spec h4
    | exact noNl_spec h5
    | exact noNl_spec h6
    | exact noNl_spec h7
    | exact noNl_spec h8
    | exact noNl_spec h9
    | exact ctypeStr_no_nl _
    | exact no_nl_jsJoin (by decide)
        (fun s hs => noNl_spec (List.all_eq_true.1 h2 s hs))

/-- C8: the claim is wrong as a statement about every pair of records — a
newline embedded in a field breaks the three-line shape: with a title
containing `\n`, the CSV export of two records splits into 4 lines. -/
theorem claim_C8_counterexample :
    (jsSplit (csvExport [rNlTitle, rCsvB]) '\n').length = 4 := by decide

/-- C8 (amended): for every two records none of whose interpolated fields
contains a newline, the CSV export splits on newlines into exactly 3 lines:
the fixed header `Title,Authors,Year,Source,Type,URL,DOI,Pages,Volume,Issue`
followed by one quoted row per record in order (each field double-quote
wrapped in the fixed column order, authors joined by `; `, as `csvRow`
defines). -/
theorem claim_C8 (r1 r2 : Citation) (h1 : citationNewlineFree r1 = true)
    (h2 : citationNewlineFree r2 = true) :
    jsSplit (csvExport [r1, r2]) '\n' = [csvHeaders, csvRow r1, csvRow r2] := by
  have he : csvExport [r1, r2] =
      csvHeaders ++ ("\n" ++ (csvRow r1 ++ ("\n" ++ csvRow r2))) := by
    apply str_ext
    simp [csvExport, jsJoin, strData_append]
  rw [he, jsSplit_nl_cut _ _ (by decide), jsSplit_nl_cut _ _ (csvRow_no_nl h1),
    jsSplit_no_sep _ _ (csvRow_no_nl h2)]

/-- C8 witness: the amended claim at two concrete newline-free records. -/
theorem claim_C8_witness :
    jsSplit (csvExport [rCsvA, rCsvB]) '\n' =
      [csvHeaders, csvRow rCsvA, csvRow rCsvB] :=
  claim_C8 rCsvA rCsvB (by decide) (by decide)

/-- C3 witness: the empty collection is rejected even for an unsupported
format string, and a singleton collection is never rejected as empty. -/
theorem claim_C3_witness :
    exportToFile ([] : List Citation) "bogus" =
      Except.error (ExportError.validation "No citations to export") :=
  (claim_C3 [] "bogus").2 rfl
